import Mathlib

/-!
# Verification of the Dexa_Dashboard core logic

Shallow embedding of the body-part toggle state machine, the ratio /
trend derivations and the data-loading paths of the dashboard pages
(`src/pages/body_part_trend.py`, `src/pages/overview.py`,
`src/pages/dexa_dashboard_saved.py`), with proofs of the spec's
testable properties.

Conventions: Python floats are modelled as exact rationals (`ℚ`);
Python's bankers rounding (`round`) is `pyRound` / `pyRound1`;
a Python `ZeroDivisionError` (or the silent `inf` that numpy scalars
produce instead) is modelled by an `Option`/`Except` failure value;
the pandas date parser is an explicit parameter `parse : String →
Option ℤ` (dates as orderable ordinals), since date parsing itself is
an external-library boundary.
-/

namespace Dexa

/-- The fixed button universe of `BODY_PART_GROUPS` in
`body_part_trend.py` (lines 32-37): Arms = [Left Arm, Right Arm],
Legs = [Left Leg, Right Leg], Total = [Total], Regions = [Android,
Gynoid]. -/
inductive BodyPart where
  | leftArm
  | rightArm
  | leftLeg
  | rightLeg
  | total
  | android
  | gynoid
  deriving DecidableEq, Fintype, Repr

/-- The toggle transition of `update_charts` (`body_part_trend.py`,
lines 224-236) before the emptiness guard: if the clicked button is
currently selected it is removed; otherwise clicking Total replaces
the selection with just Total, and clicking any other part evicts
Total (if present) and adds the clicked part. -/
def toggleCore (state : Finset BodyPart) (clicked : BodyPart) : Finset BodyPart :=
  if clicked ∈ state then
    state.erase clicked
  else if clicked = BodyPart.total then
    {BodyPart.total}
  else
    insert clicked (state.erase BodyPart.total)

/-- The full toggle transition (`body_part_trend.py`, lines 224-241):
the core toggle followed by the guard "if nothing selected, default
to Total". -/
def toggle (state : Finset BodyPart) (clicked : BodyPart) : Finset BodyPart :=
  let s := toggleCore state clicked
  if s = ∅ then {BodyPart.total} else s

/-- Initial selection on first render (`body_part_trend.py`, lines
244-247): Total selected by default. -/
def initialSelection : Finset BodyPart := {BodyPart.total}

/-- Folding a sequence of toggle-click events from the initial
selection. -/
def run (clicks : List BodyPart) : Finset BodyPart :=
  clicks.foldl toggle initialSelection

/-- The Total-exclusivity invariant: if Total is selected it is the
only selected part. -/
def TotalExclusive (s : Finset BodyPart) : Prop :=
  BodyPart.total ∈ s → s = {BodyPart.total}

/-- Python's `round(x)` on an exact rational: round half to even,
returning an integer. -/
def pyRound (q : ℚ) : ℤ :=
  let f : ℤ := ⌊q⌋
  let frac : ℚ := q - f
  if frac < 1 / 2 then f
  else if 1 / 2 < frac then f + 1
  else if f % 2 = 0 then f else f + 1

/-- Python's `round(x, 1)`: round to the nearest tenth, half to
even. -/
def pyRound1 (q : ℚ) : ℚ :=
  (pyRound (q * 10) : ℚ) / 10

/-- Rendering of a non-negative multiple of one tenth with exactly
one decimal digit, as Python's `f"{x:.1f}"` does on the already
rounded `numerator` of `format_ratio`. -/
def fmtOneDecimal (q : ℚ) : String :=
  let n : ℤ := pyRound (q * 10)
  toString (n / 10) ++ "." ++ toString (n % 10)

/-- `format_ratio` (`body_part_trend.py`, lines 61-65):

    ratio = fat / lean
    denominator = int(round(1 / ratio)) if ratio < 1 else 1
    numerator = round(ratio * denominator, 1)
    return f"..."

`none` marks the inputs on which Python's evaluation has no
well-defined numeric result (a division by zero: `lean == 0`, or
`ratio == 0` in the reciprocal). -/
def format_ratio (fatG leanG : ℚ) : Option String :=
  if leanG = 0 then none
  else
    let ratio := fatG / leanG
    if ratio < 1 then
      if ratio = 0 then none
      else
        let denominator : ℤ := pyRound (1 / ratio)
        let numerator : ℚ := pyRound1 (ratio * denominator)
        some (fmtOneDecimal numerator ++ ":" ++ toString denominator)
    else
      let denominator : ℤ := 1
      let numerator : ℚ := pyRound1 (ratio * denominator)
      some (fmtOneDecimal numerator ++ ":" ++ toString denominator)

/-- The `computeRatio` algorithm exactly as the spec words it (for
the refinement check of `format_ratio` against it): `r = fat/lean`;
if `r < 1` then `denominator = round(1/r)`, `numerator =
round(r * denominator, 1)`; else `denominator = 1`, `numerator =
round(r, 1)`. Returns `(numerator, denominator)`. -/
def computeRatioSpec (fatG leanG : ℚ) : ℚ × ℤ :=
  let r := fatG / leanG
  if r < 1 then
    let d : ℤ := pyRound (1 / r)
    (pyRound1 (r * d), d)
  else
    (pyRound1 r, 1)

/-- Trend classification outcome of the progress card
(`dexa_dashboard_saved.py`, lines 293-304). -/
inductive Trend where
  | stable
  | decreasing
  | increasing
  deriving DecidableEq, Repr

/-- The trend classification of `update_benchmark_chart`
(`dexa_dashboard_saved.py`, lines 289-304):

    fat_change_g = latest - first
    fat_change_pct = (fat_change_g / first) * 100
    if abs(fat_change_pct) < 2: Stable
    elif fat_change_g < 0: Decreasing
    else: Increasing
-/
def classifyTrend (latest first : ℚ) : Trend :=
  let changeG := latest - first
  let changePct := changeG / first * 100
  if |changePct| < 2 then Trend.stable
  else if changeG < 0 then Trend.decreasing
  else Trend.increasing

/-- One raw CSV row as read by `pd.read_csv`, before date
normalization. -/
structure RawRow where
  scanDate : String
  patientName : String
  bodyPart : String
  fatG : ℚ
  leanG : ℚ
  deriving DecidableEq, Repr

/-- A row after its `Scan Date` string has been parsed to an
orderable date ordinal. -/
structure ScanRecord where
  scanDate : ℤ
  raw : RawRow
  deriving DecidableEq, Repr

/-- `load_data` of `body_part_trend.py` (lines 19-27):
`pd.to_datetime(..., errors="coerce")` turns unparseable dates into
`NaT` and `dropna(subset=["Scan Date"])` removes exactly those rows,
leaving the rest in file order; no sorting happens here. The
function is total (the Python version wraps everything in
`try/except` and degrades to an empty frame). -/
def load_data (parse : String → Option ℤ) (rows : List RawRow) : List ScanRecord :=
  rows.filterMap fun r => (parse r.scanDate).map fun d => ScanRecord.mk d r

/-- Date order on parsed records, used by the overview page's
`sort_values('Scan Date')`. -/
def dateLE (a b : ScanRecord) : Prop :=
  a.scanDate ≤ b.scanDate

instance : DecidableRel dateLE := fun a b => Int.decLe a.scanDate b.scanDate

instance : IsTotal ScanRecord dateLE :=
  ⟨fun a b => Int.le_total a.scanDate b.scanDate⟩

instance : IsTrans ScanRecord dateLE :=
  ⟨fun _ _ _ h h' => Int.le_trans h h'⟩

/-- `load_data` of `overview.py` (lines 18-25): `pd.to_datetime`
WITHOUT `errors="coerce"`, so a single unparseable date raises a
`ValueError` that nothing catches (modelled as an `Except.error`);
on success the frame is sorted by `Scan Date` ascending. Only the
master-table half is modelled; the composition table is loaded the
same way. -/
def load_data_overview (parse : String → Option ℤ) (rows : List RawRow) :
    Except String (List ScanRecord) :=
  match rows.mapM (fun r => (parse r.scanDate).map fun d => ScanRecord.mk d r) with
  | none => Except.error "time data does not match format"
  | some rs => Except.ok (List.insertionSort dateLE rs)

/-- A concrete date parser fixture for witnesses and counterexamples
(the real `%m-%d-%Y` parser lives inside pandas, outside the modelled
core); dates map to `yyyymmdd` ordinals. -/
def demoParse : String → Option ℤ := fun s =>
  match s with
  | "01-15-2024" => some 20240115
  | "02-20-2024" => some 20240220
  | "03-10-2024" => some 20240310
  | _ => none

/-- Fixture row with a parseable mid-January date. -/
def demoRow1 : RawRow :=
  RawRow.mk "01-15-2024" "Alice" "Total" 3000 27000

/-- Fixture row with a parseable late-February date. -/
def demoRow2 : RawRow :=
  RawRow.mk "02-20-2024" "Alice" "Total" 3100 26900

/-- Fixture row whose date does not parse under `%m-%d-%Y`. -/
def demoRowBad : RawRow :=
  RawRow.mk "2024/05/30" "Alice" "Total" 3200 26800

/-- One row of the benchmark results table consumed by
`dexa_dashboard_saved.py` (the fields its progress card reads). -/
structure BenchmarkRecord where
  scanDate : ℤ
  totalBodyFatG : ℚ
  deriving DecidableEq, Repr

/-- The progress card outcome of `update_benchmark_chart`
(`dexa_dashboard_saved.py`, lines 287-343): either a computed trend
(with total change in grams, percent change, and scan count) or the
"Baseline Scan" card. -/
inductive ProgressCard where
  | progress (trend : Trend) (fatChangeG : ℚ) (fatChangePct : ℚ) (totalScans : ℕ)
  | baseline
  deriving DecidableEq, Repr

/-- The progress-card computation of `update_benchmark_chart`
(`dexa_dashboard_saved.py`, lines 286-343): `patient_df` is the
patient's benchmark series sorted by scan date; when `len(patient_df)
> 1` the card computes `fat_change_g`, `fat_change_pct` and the trend
from `first = patient_df.iloc[0]` and `latest = patient_df.iloc[-1]`,
otherwise it is the "Baseline Scan" card. -/
def progress_card (patientRecords : List BenchmarkRecord) : ProgressCard :=
  if 1 < patientRecords.length then
    match patientRecords with
    | [] => ProgressCard.baseline
    | r :: rs =>
        let first := r
        let latest := rs.getLastD r
        let fatChangeG := latest.totalBodyFatG - first.totalBodyFatG
        let fatChangePct := fatChangeG / first.totalBodyFatG * 100
        ProgressCard.progress (classifyTrend latest.totalBodyFatG first.totalBodyFatG)
          fatChangeG fatChangePct patientRecords.length
  else
    ProgressCard.baseline

/-! ## Helper lemmas -/

/-- Every single toggle step yields a non-empty selection, thanks to
the final "default to Total" guard. -/
theorem toggle_ne_empty : ∀ (s : Finset BodyPart) (c : BodyPart), toggle s c ≠ ∅ := by
  set_option maxRecDepth 8000 in decide

/-- Folding toggles from a non-empty selection never reaches the
empty selection. -/
theorem foldl_toggle_ne_empty (clicks : List BodyPart) :
    ∀ s : Finset BodyPart, s ≠ ∅ → clicks.foldl toggle s ≠ ∅ := by
  induction clicks with
  | nil => intro s h; simpa using h
  | cons c cs ih => intro s _; exact ih (toggle s c) (toggle_ne_empty s c)

/-- A toggle step preserves Total-exclusivity. -/
theorem toggle_preserves_exclusive :
    ∀ (s : Finset BodyPart) (c : BodyPart),
      (BodyPart.total ∈ s → s = {BodyPart.total}) →
      BodyPart.total ∈ toggle s c → toggle s c = {BodyPart.total} := by
  set_option maxRecDepth 8000 in decide

/-- Folding toggles from any state satisfying Total-exclusivity keeps
the invariant. -/
theorem foldl_preserves_exclusive (clicks : List BodyPart) :
    ∀ s : Finset BodyPart, (BodyPart.total ∈ s → s = {BodyPart.total}) →
      BodyPart.total ∈ clicks.foldl toggle s → clicks.foldl toggle s = {BodyPart.total} := by
  induction clicks with
  | nil => intro s h; simpa using h
  | cons c cs ih =>
      intro s h
      exact ih (toggle s c) (toggle_preserves_exclusive s c h)

/-! ## C1: clicking Total -/

/-- Claim C1 as stated is false: on the state `{Total, Left Arm}`
(an arbitrary subset of the button universe), clicking Total takes
the "already selected, so remove it" branch and yields `{Left Arm}`,
not `{Total}`. -/
theorem toggle_total_not_singleton_cex :
    toggle {BodyPart.total, BodyPart.leftArm} BodyPart.total ≠ {BodyPart.total} ∧
    toggle {BodyPart.total, BodyPart.leftArm} BodyPart.total = {BodyPart.leftArm} := by
  decide

set_option maxRecDepth 8000 in
/-- Claim C1 (amended): on every selection state satisfying
Total-exclusivity — in particular every state reachable from the
initial selection — toggling with clickedId = Total yields exactly
`{Total}`. -/
theorem toggle_total_yields_total :
    ∀ s : Finset BodyPart, (BodyPart.total ∈ s → s = {BodyPart.total}) →
      toggle s BodyPart.total = {BodyPart.total} := by
  decide

/-- Witness for C1: the amended theorem applied at the concrete state
`{Left Arm, Right Arm}`. -/
theorem toggle_total_yields_total_witness :
    (BodyPart.total ∈ ({BodyPart.leftArm, BodyPart.rightArm} : Finset BodyPart) →
      ({BodyPart.leftArm, BodyPart.rightArm} : Finset BodyPart) = {BodyPart.total}) ∧
    toggle {BodyPart.leftArm, BodyPart.rightArm} BodyPart.total = {BodyPart.total} :=
  ⟨by decide, toggle_total_yields_total {BodyPart.leftArm, BodyPart.rightArm} (by decide)⟩

/-! ## C2: the selection is never empty -/

/-- Claim C2: after any sequence of toggle-click events from the
initial `{Total}` selection, the selection is non-empty; and any
transition whose core result is empty resets the selection to
`{Total}`. -/
theorem selection_never_empty :
    (∀ clicks : List BodyPart, run clicks ≠ ∅) ∧
    (∀ (s : Finset BodyPart) (c : BodyPart),
      toggleCore s c = ∅ → toggle s c = {BodyPart.total}) := by
  constructor
  · intro clicks
    exact foldl_toggle_ne_empty clicks initialSelection (by decide)
  · intro s c h
    simp [toggle, h]

/-- Witness for C2: the empty-click history, and the concrete
transition that deselects the sole selected part (whose core result
is empty and which therefore resets to `{Total}`). -/
theorem selection_never_empty_witness :
    run [] ≠ ∅ ∧
    toggleCore {BodyPart.leftArm} BodyPart.leftArm = ∅ ∧
    toggle {BodyPart.leftArm} BodyPart.leftArm = {BodyPart.total} :=
  ⟨selection_never_empty.1 [], by decide,
    selection_never_empty.2 {BodyPart.leftArm} BodyPart.leftArm (by decide)⟩

/-! ## C3: Total-exclusivity is invariant -/

/-- Claim C3: in every selection state reachable from the initial
`{Total}` by toggle-click events, if Total is selected then it is the
only selected part. -/
theorem run_total_exclusive (clicks : List BodyPart)
    (h : BodyPart.total ∈ run clicks) : run clicks = {BodyPart.total} :=
  foldl_preserves_exclusive clicks initialSelection (fun _ => rfl) h

/-- Witness for C3: the empty click history, where Total is selected
and is indeed the only selected part. -/
theorem run_total_exclusive_witness :
    BodyPart.total ∈ run [] ∧ run [] = {BodyPart.total} :=
  ⟨by decide, run_total_exclusive [] (by decide)⟩

/-! ## C4: double-toggle involution -/

/-- Claim C4 as stated is false: `{Total, Left Arm}` has more than
one element and contains the non-Total part Left Arm, yet toggling
Left Arm twice lands on `{Left Arm}` (the second toggle evicts
Total), not back on the original state. -/
theorem toggle_involution_cex :
    1 < ({BodyPart.total, BodyPart.leftArm} : Finset BodyPart).card ∧
    BodyPart.leftArm ∈ ({BodyPart.total, BodyPart.leftArm} : Finset BodyPart) ∧
    BodyPart.leftArm ≠ BodyPart.total ∧
    toggle (toggle {BodyPart.total, BodyPart.leftArm} BodyPart.leftArm) BodyPart.leftArm ≠
      {BodyPart.total, BodyPart.leftArm} := by
  decide

set_option maxRecDepth 100000 in
/-- Claim C4 (amended): for every selection state `s` with more than
one element that does not contain Total — which is every reachable
state with more than one element, by Total-exclusivity — and every
part `x ∈ s` with `x ≠ Total`, toggling `x` twice returns to `s`. -/
theorem toggle_involution_no_total :
    ∀ (s : Finset BodyPart) (x : BodyPart),
      1 < s.card → x ∈ s → x ≠ BodyPart.total → BodyPart.total ∉ s →
      toggle (toggle s x) x = s := by
  decide

/-- Witness for C4: the amended theorem applied at
`s = {Left Arm, Right Arm}`, `x = Left Arm`. -/
theorem toggle_involution_no_total_witness :
    1 < ({BodyPart.leftArm, BodyPart.rightArm} : Finset BodyPart).card ∧
    BodyPart.leftArm ∈ ({BodyPart.leftArm, BodyPart.rightArm} : Finset BodyPart) ∧
    BodyPart.leftArm ≠ BodyPart.total ∧
    BodyPart.total ∉ ({BodyPart.leftArm, BodyPart.rightArm} : Finset BodyPart) ∧
    toggle (toggle {BodyPart.leftArm, BodyPart.rightArm} BodyPart.leftArm) BodyPart.leftArm =
      {BodyPart.leftArm, BodyPart.rightArm} :=
  ⟨by decide, by decide, by decide, by decide,
    toggle_involution_no_total {BodyPart.leftArm, BodyPart.rightArm} BodyPart.leftArm
      (by decide) (by decide) (by decide) (by decide)⟩

/-! ## C5: the ratio rendering -/

/-- Claim C5 as stated is false at the boundary `fat = 0` of its
`fat >= 0` domain: there `ratio = 0 < 1` and `1 / ratio` is a
division by zero, so the code produces no rendered ratio (a
`ZeroDivisionError` on plain Python numbers, an overflow on the
unroundable `inf` for numpy scalars) instead of following the
algorithm. -/
theorem format_ratio_zero_fat_cex :
    format_ratio 0 27000 = none ∧ (0:ℚ) ≤ 0 ∧ (0:ℚ) < 27000 := by
  refine ⟨by norm_num [format_ratio], le_refl 0, by norm_num⟩

/-- Claim C5 (amended): for every `fat > 0` and `lean > 0`,
`format_ratio` renders exactly the numerator and denominator of the
spec's `computeRatio` algorithm, and the two concrete test vectors
render "1.0:9" and "1.5:1". -/
theorem format_ratio_matches_spec :
    (∀ fatG leanG : ℚ, 0 < fatG → 0 < leanG →
      format_ratio fatG leanG =
        some (fmtOneDecimal (computeRatioSpec fatG leanG).1 ++ ":" ++
          toString (computeRatioSpec fatG leanG).2)) ∧
    format_ratio 3000 27000 = some "1.0:9" ∧
    format_ratio 30000 20000 = some "1.5:1" := by
  refine ⟨?_, ?_, ?_⟩
  · intro fatG leanG hf hl
    have hl0 : leanG ≠ 0 := ne_of_gt hl
    have hr : 0 < fatG / leanG := div_pos hf hl
    simp only [format_ratio, computeRatioSpec, if_neg hl0, if_neg (ne_of_gt hr)]
    split_ifs with h1
    · rfl
    · norm_num
  · norm_num [format_ratio, pyRound, pyRound1, fmtOneDecimal]
    rfl
  · norm_num [format_ratio, pyRound, pyRound1, fmtOneDecimal]
    rfl

/-- Witness for C5: the general refinement applied at the concrete
input `fat = 3000`, `lean = 27000`. -/
theorem format_ratio_matches_spec_witness :
    (0:ℚ) < 3000 ∧ (0:ℚ) < 27000 ∧
    format_ratio 3000 27000 =
      some (fmtOneDecimal (computeRatioSpec 3000 27000).1 ++ ":" ++
        toString (computeRatioSpec 3000 27000).2) :=
  ⟨by norm_num, by norm_num,
    format_ratio_matches_spec.1 3000 27000 (by norm_num) (by norm_num)⟩

/-! ## C6: division by zero in the ratio -/

/-- Claim C6 concerns a code bug: `format_ratio` has no guard for
`lean == 0` and `update_charts` calls it unprotected, so the
division-by-zero error condition is reached (modelled as `none`)
rather than being caught and surfaced as "no data"; with numpy
scalars the quotient is even a silent `inf` rendered as "inf:1",
exactly what the spec forbids. -/
theorem format_ratio_div_zero_bug :
    format_ratio 1000 0 = none := by
  rfl

/-! ## C7: trend classification -/

/-- Claim C7: for every `latest` and `first ≠ 0`, the progress-card
trend is Stable exactly when `|(latest - first) / first * 100| < 2`,
Decreasing exactly when the change is at least 2% in magnitude and
negative, Increasing exactly when it is at least 2% in magnitude and
positive; and the two concrete test vectors classify as Decreasing
and Stable. -/
theorem classifyTrend_matches_spec :
    (∀ latest first : ℚ, first ≠ 0 →
      ((classifyTrend latest first = Trend.stable ↔
          |(latest - first) / first * 100| < 2) ∧
       (classifyTrend latest first = Trend.decreasing ↔
          ¬ |(latest - first) / first * 100| < 2 ∧ latest - first < 0) ∧
       (classifyTrend latest first = Trend.increasing ↔
          ¬ |(latest - first) / first * 100| < 2 ∧ 0 < latest - first))) ∧
    classifyTrend 95 100 = Trend.decreasing ∧
    classifyTrend (201 / 2) 100 = Trend.stable := by
  refine ⟨?_, by norm_num [classifyTrend], by norm_num [classifyTrend, abs_of_pos, abs_of_neg]⟩
  intro latest first hf
  have key : latest - first = 0 → |(latest - first) / first * 100| < 2 := by
    intro h; rw [h]; norm_num
  unfold classifyTrend
  dsimp only
  split_ifs with h1 h2
  · exact ⟨by simp [h1], by simp [h1], by simp [h1]⟩
  · have h3 : ¬ 0 < latest - first := by linarith
    exact ⟨by simp [h1], by simp [h1, h2], by simp [h1, h3]⟩
  · have hc : latest - first ≠ 0 := fun h => h1 (key h)
    have hpos : 0 < latest - first := lt_of_le_of_ne (not_lt.mp h2) (Ne.symm hc)
    exact ⟨by simp [h1], by simp [h1, h2], by simp [h1, hpos]⟩

/-- Witness for C7: the characterization applied at
`latest = 95`, `first = 100`. -/
theorem classifyTrend_matches_spec_witness :
    (100:ℚ) ≠ 0 ∧
    (classifyTrend 95 100 = Trend.decreasing ↔
      ¬ |((95:ℚ) - 100) / 100 * 100| < 2 ∧ (95:ℚ) - 100 < 0) :=
  ⟨by norm_num, (classifyTrend_matches_spec.1 95 100 (by norm_num)).2.1⟩

/-! ## C8: dropping unparseable dates -/

/-- Claim C8 as stated is false for `overview.py`: its `load_data`
parses dates without `errors="coerce"`, so a single unparseable date
is fatal (the whole load raises) instead of dropping just that
row. -/
theorem load_overview_fatal_cex :
    load_data_overview demoParse [demoRow1, demoRowBad] =
      Except.error "time data does not match format" := by
  rfl

/-- Claim C8 (amended): for `body_part_trend.py`'s `load_data` the
claim holds — whatever the date parser accepts, the load keeps
exactly the rows whose date parses, in their original relative
order, and is total (never fatal). -/
theorem load_data_drops_unparseable :
    ∀ (parse : String → Option ℤ) (rows : List RawRow),
      (load_data parse rows).map ScanRecord.raw =
        rows.filter fun r => (parse r.scanDate).isSome := by
  intro parse rows
  induction rows with
  | nil => rfl
  | cons r rs ih =>
      simp only [load_data] at ih ⊢
      cases h : parse r.scanDate <;>
        simp [List.filterMap_cons, h, List.filter_cons, ih]

/-! ## C9: sortedness of the loaded records -/

/-- Claim C9 as stated is false for `body_part_trend.py`: its
`load_data` never sorts, so a file whose rows are not already in
date order is returned out of order (sorting only happens later,
inside `update_charts`). -/
theorem load_data_unsorted_cex :
    ¬ List.Sorted (· ≤ ·)
        ((load_data demoParse [demoRow2, demoRow1]).map ScanRecord.scanDate) := by
  decide

/-- Claim C9 (amended): `overview.py`'s `load_data` does return the
records sorted by scan date ascending whenever it succeeds. -/
theorem load_overview_sorted :
    ∀ (parse : String → Option ℤ) (rows : List RawRow) (out : List ScanRecord),
      load_data_overview parse rows = Except.ok out → List.Sorted dateLE out := by
  intro parse rows out h
  unfold load_data_overview at h
  split at h
  · exact Except.noConfusion h
  · injection h with h'
    subst h'
    exact List.sorted_insertionSort dateLE _

/-- Witness for C9: the overview load applied to two parseable rows
given in reverse date order returns them sorted ascending. -/
theorem load_overview_sorted_witness :
    load_data_overview demoParse [demoRow2, demoRow1] =
      Except.ok [ScanRecord.mk 20240115 demoRow1, ScanRecord.mk 20240220 demoRow2] ∧
    List.Sorted dateLE [ScanRecord.mk 20240115 demoRow1, ScanRecord.mk 20240220 demoRow2] :=
  ⟨by rfl, load_overview_sorted demoParse [demoRow2, demoRow1] _ (by rfl)⟩

/-! ## C10: single-scan guard on the benchmark page -/

/-- Claim C10: when a patient's benchmark series has exactly one
record, the progress computation is skipped — the card is the
"Baseline Scan" card, whose constructor carries no computed change,
so no division by the first record's fat mass takes place. -/
theorem progress_card_single_scan_baseline :
    ∀ l : List BenchmarkRecord, l.length = 1 →
      progress_card l = ProgressCard.baseline := by
  intro l h
  simp [progress_card, h]

/-- Witness for C10: a concrete singleton series (whose fat mass
could even be zero without harm) yields the baseline card. -/
theorem progress_card_single_scan_baseline_witness :
    ([BenchmarkRecord.mk 20240115 30000] : List BenchmarkRecord).length = 1 ∧
    progress_card [BenchmarkRecord.mk 20240115 30000] = ProgressCard.baseline :=
  ⟨rfl, progress_card_single_scan_baseline [BenchmarkRecord.mk 20240115 30000] rfl⟩

end Dexa
